import Mathlib

/-!
Shallow embedding of
`src/vs/workbench/contrib/notebook/browser/diff/celllDiffViewModel.ts`:
the view-model layer for the notebook diff editor.  Pixel heights are
modelled as `Nat` (the backing store in the source is a `Uint32Array`
and the spec requires non-negative integer sizes).  Thrown JS errors are
modelled by an explicit error type returned in an `Except`; the event
emitter is modelled by returning the list of events fired by an
operation.
-/

/-- `PropertyFoldingState` from the source: collapsed/expanded display
mode for metadata or output regions. -/
inductive PropertyFoldingState
  | Expanded
  | Collapsed
deriving DecidableEq, Repr

/-- The `_layoutInfo` record of `CellDiffViewModelBase`: mutable layout
fields per diff entry. -/
structure LayoutInfo where
  width : Nat
  editorHeight : Nat
  editorMargin : Nat
  metadataStatusHeight : Nat
  metadataHeight : Nat
  outputStatusHeight : Nat
  outputHeight : Nat
  bodyMargin : Nat
deriving DecidableEq, Repr

/-- The `_layoutInfo` value installed by the `CellDiffViewModelBase`
constructor: `width 0, editorHeight 0, editorMargin 0,
metadataHeight 0, metadataStatusHeight 25, outputHeight 0,
outputStatusHeight 25, bodyMargin 32`. -/
def initialLayoutInfo : LayoutInfo :=
  { width := 0, editorHeight := 0, editorMargin := 0,
    metadataStatusHeight := 25, metadataHeight := 0,
    outputStatusHeight := 25, outputHeight := 0, bodyMargin := 32 }

/-- `CellDiffViewModelLayoutChangeEvent`: the descriptor fired through
`_fireLayoutChangeEvent`, flagging which sub-regions a mutation
affected.  Absent flags in the source object literals are `false`. -/
structure CellDiffViewModelLayoutChangeEvent where
  outerWidth : Bool
  editorHeight : Bool
  metadataEditor : Bool
  outputEditor : Bool
  outputView : Bool
deriving DecidableEq, Repr

/-- The empty descriptor `{}` fired by setters that affect none of the
five flagged sub-regions, and by `layoutChange`. -/
def blankEvent : CellDiffViewModelLayoutChangeEvent :=
  { outerWidth := false, editorHeight := false, metadataEditor := false,
    outputEditor := false, outputView := false }

/-- The `outputHeight` setter: writes `_layoutInfo.outputHeight` and
fires `{ outputEditor: true, outputView: true }`. -/
def set_outputHeight (l : LayoutInfo) (h : Nat) :
    LayoutInfo × List CellDiffViewModelLayoutChangeEvent :=
  ({ l with outputHeight := h },
   [{ blankEvent with outputEditor := true, outputView := true }])

/-- The `outputStatusHeight` setter: writes the field and fires `{}`. -/
def set_outputStatusHeight (l : LayoutInfo) (h : Nat) :
    LayoutInfo × List CellDiffViewModelLayoutChangeEvent :=
  ({ l with outputStatusHeight := h }, [blankEvent])

/-- The `editorHeight` setter: writes the field and fires
`{ editorHeight: true }`. -/
def set_editorHeight (l : LayoutInfo) (h : Nat) :
    LayoutInfo × List CellDiffViewModelLayoutChangeEvent :=
  ({ l with editorHeight := h }, [{ blankEvent with editorHeight := true }])

/-- The `editorMargin` setter: writes the field and fires `{}`. -/
def set_editorMargin (l : LayoutInfo) (h : Nat) :
    LayoutInfo × List CellDiffViewModelLayoutChangeEvent :=
  ({ l with editorMargin := h }, [blankEvent])

/-- The `metadataHeight` setter: writes the field and fires
`{ metadataEditor: true }`. -/
def set_metadataHeight (l : LayoutInfo) (h : Nat) :
    LayoutInfo × List CellDiffViewModelLayoutChangeEvent :=
  ({ l with metadataHeight := h }, [{ blankEvent with metadataEditor := true }])

/-- The `totalHeight` getter of `CellDiffViewModelBase`: the sum of
`editorHeight, editorMargin, metadataHeight, metadataStatusHeight,
outputHeight, outputStatusHeight, bodyMargin` (transcribed from the
source; note the source does not add `width`). -/
def totalHeight (l : LayoutInfo) : Nat :=
  l.editorHeight + l.editorMargin + l.metadataHeight
    + l.metadataStatusHeight + l.outputHeight + l.outputStatusHeight
    + l.bodyMargin

/-- The sum of all eight fields of the layout record, written from the
spec sentence "Total height is the sum of all fields" for comparison
with `totalHeight`. -/
def sumAllLayoutFields (l : LayoutInfo) : Nat :=
  l.width + l.editorHeight + l.editorMargin + l.metadataHeight
    + l.metadataStatusHeight + l.outputHeight + l.outputStatusHeight
    + l.bodyMargin

/-- Modelled from the spec: the incremental cumulative-offset tracker
(`PrefixSumComputer`, imported from outside this fragment) is a mutable
sequence of non-negative integer sizes; `getTotalValue` queries the
total accumulated size.  Modelled as the plain sum of the value
sequence. -/
def getTotalValue (ps : List Nat) : Nat := ps.sum

/-- Modelled from the spec: the tracker query "accumulated size up to
(but excluding) a given index".  The source calls
`getAccumulatedValue(index - 1)`, i.e. the sum of the values at
indices `0 .. index-1`; modelled as the sum of the first `index`
values. -/
def getAccumulatedValueExcl (ps : List Nat) (index : Nat) : Nat :=
  (ps.take index).sum

/-- Modelled from the spec: `changeValue` updates the size at a given
index and reports whether the total changed.  Setting index `i` to `v`
changes the total exactly when the value stored at `i` differed from
`v`. -/
def changeValue (ps : List Nat) (i v : Nat) : Bool × List Nat :=
  (ps.getD i 0 != v, ps.set i v)

/-- The errors an operation of this fragment can raise: the explicit
`throw new Error('Output index out of range!')`, and the JS `TypeError`
that dereferencing an absent (`null`) tracker would raise. -/
inductive CellError
  | outOfRange
  | nullDeref
deriving DecidableEq, Repr

/-- State of a `SingleSideCellDiffViewModel`: the output height
collection (`new Array(n)` leaves every entry undefined, modelled as
`none`), the lazily built tracker `_outputsTop`, the inherited layout
record and output folding state. -/
structure SingleSideState where
  outputCollection : List (Option Nat)
  outputsTop : Option (List Nat)
  layoutInfo : LayoutInfo
  outputFoldingState : PropertyFoldingState
deriving DecidableEq, Repr

/-- The state after the `SingleSideCellDiffViewModel` constructor for a
cell with `n` outputs: `_outputCollection = new Array(n)` (all entries
undefined), `_outputsTop = null`, the base-class layout record, folding
state collapsed. -/
def initSingleSide (n : Nat) : SingleSideState :=
  { outputCollection := List.replicate n none, outputsTop := none,
    layoutInfo := initialLayoutInfo,
    outputFoldingState := PropertyFoldingState.Collapsed }

/-- Reading the collection as the tracker does: copying into a
`Uint32Array` turns each undefined entry into `0`. -/
def collectionHeights (c : List (Option Nat)) : List Nat :=
  c.map (fun o => o.getD 0)

/-- `SingleSideCellDiffViewModel.ensureOutputsTop`: if `_outputsTop` is
null, build a `PrefixSumComputer` from the current collection values
(undefined entries read as 0). -/
def ensureOutputsTop (s : SingleSideState) : SingleSideState :=
  match s.outputsTop with
  | some _ => s
  | none => { s with outputsTop := some (collectionHeights s.outputCollection) }

/-- `SingleSideCellDiffViewModel.getOutputTotalHeight`:
`ensureOutputsTop` then `_outputsTop?.getTotalValue() ?? 0`.  Returns
the value together with the (possibly ensured) state. -/
def getOutputTotalHeight (s : SingleSideState) : Nat × SingleSideState :=
  let s1 := ensureOutputsTop s
  ((s1.outputsTop.map getTotalValue).getD 0, s1)

/-- `SingleSideCellDiffViewModel.layoutChange`: `ensureOutputsTop`,
recompute `outputHeight` (0 when the output region is collapsed,
otherwise `getOutputTotalHeight()`), rebuild `_layoutInfo` with only
that field changed, and fire `{}`. -/
def layoutChange (s : SingleSideState) :
    SingleSideState × List CellDiffViewModelLayoutChangeEvent :=
  let s1 := ensureOutputsTop s
  if s1.outputFoldingState = PropertyFoldingState.Collapsed then
    ({ s1 with layoutInfo := { s1.layoutInfo with outputHeight := 0 } },
     [blankEvent])
  else
    let r := getOutputTotalHeight s1
    ({ r.2 with layoutInfo := { r.2.layoutInfo with outputHeight := r.1 } },
     [blankEvent])

/-- `SingleSideCellDiffViewModel.updateOutputHeight`: throw when
`index >= _outputCollection.length`; otherwise `ensureOutputsTop`,
write the collection entry, `changeValue` on the tracker (the `!`
dereference), and call `layoutChange` exactly when the tracker reports
a change. -/
def updateOutputHeight (s : SingleSideState) (index height : Nat) :
    Except CellError Unit × SingleSideState
      × List CellDiffViewModelLayoutChangeEvent :=
  if s.outputCollection.length ≤ index then
    (Except.error CellError.outOfRange, s, [])
  else
    let s1 := ensureOutputsTop s
    let s2 := { s1 with
      outputCollection := s1.outputCollection.set index (some height) }
    match s2.outputsTop with
    | none => (Except.error CellError.nullDeref, s2, [])
    | some ps =>
      let r := changeValue ps index height
      let s3 := { s2 with outputsTop := some r.2 }
      if r.1 then
        let lc := layoutChange s3
        (Except.ok (), lc.1, lc.2)
      else
        (Except.ok (), s3, [])

/-- `SingleSideCellDiffViewModel.getOutputOffsetInContainer`:
`ensureOutputsTop` first, then throw when
`index >= _outputCollection.length`, otherwise
`_outputsTop!.getAccumulatedValue(index - 1)`. -/
def getOutputOffsetInContainer (s : SingleSideState) (index : Nat) :
    Except CellError Nat × SingleSideState :=
  let s1 := ensureOutputsTop s
  if s1.outputCollection.length ≤ index then
    (Except.error CellError.outOfRange, s1)
  else
    match s1.outputsTop with
    | none => (Except.error CellError.nullDeref, s1)
    | some ps => (Except.ok (getAccumulatedValueExcl ps index), s1)

/-- Folding a sequence of `updateOutputHeight` calls (index, height)
over a single-side state, keeping the state component. -/
def applyUpdates (s : SingleSideState) (us : List (Nat × Nat)) :
    SingleSideState :=
  us.foldl (fun st u => (updateOutputHeight st u.1 u.2).2.1) s

/-- The reference heights after a sequence of updates: start from `n`
zeros (a height never set counts as 0) and set each updated index to
its most recently set height. -/
def refHeights (n : Nat) (us : List (Nat × Nat)) : List Nat :=
  us.foldl (fun l u => l.set u.1 u.2) (List.replicate n 0)

/-- The tracker invariant for the single-side variant: `_outputsTop` is
either absent or holds exactly the values of the backing output-height
collection (undefined entries as 0). -/
def trackerInv (s : SingleSideState) : Prop :=
  ∀ ps, s.outputsTop = some ps → ps = collectionHeights s.outputCollection

/-- State of a `SideBySideCellDiffViewModel`: one output height
collection and one lazily built tracker per side (original/modified),
plus the inherited layout record and output folding state. -/
structure SideBySideState where
  originalOutputCollection : List (Option Nat)
  originalOutputsTop : Option (List Nat)
  modifiedOutputCollection : List (Option Nat)
  modifiedOutputsTop : Option (List Nat)
  layoutInfo : LayoutInfo
  outputFoldingState : PropertyFoldingState
deriving DecidableEq, Repr

/-- The state after the `SideBySideCellDiffViewModel` constructor for
cells with `nOrig` original and `nMod` modified outputs (folding state
as left by the constructor is passed in, since it depends on the
metadata/output modification checks). -/
def initSideBySide (nOrig nMod : Nat) (fs : PropertyFoldingState) :
    SideBySideState :=
  { originalOutputCollection := List.replicate nOrig none,
    originalOutputsTop := none,
    modifiedOutputCollection := List.replicate nMod none,
    modifiedOutputsTop := none,
    layoutInfo := initialLayoutInfo,
    outputFoldingState := fs }

/-- `SideBySideCellDiffViewModel.ensureOriginalOutputsTop`. -/
def ensureOriginalOutputsTop (s : SideBySideState) : SideBySideState :=
  match s.originalOutputsTop with
  | some _ => s
  | none => { s with
      originalOutputsTop := some (collectionHeights s.originalOutputCollection) }

/-- `SideBySideCellDiffViewModel.ensureModifiedOutputsTop`. -/
def ensureModifiedOutputsTop (s : SideBySideState) : SideBySideState :=
  match s.modifiedOutputsTop with
  | some _ => s
  | none => { s with
      modifiedOutputsTop := some (collectionHeights s.modifiedOutputCollection) }

/-- `SideBySideCellDiffViewModel.ensureOutputsTop`: ensure the original
tracker, then the modified tracker. -/
def ensureOutputsTopSBS (s : SideBySideState) : SideBySideState :=
  ensureModifiedOutputsTop (ensureOriginalOutputsTop s)

/-- `SideBySideCellDiffViewModel.getOutputTotalHeight`:
`ensureOutputsTop` then
`Math.max(_originalOutputsTop?.getTotalValue() ?? 0,
_modifiedOutputsTop?.getTotalValue() ?? 0)`. -/
def getOutputTotalHeightSBS (s : SideBySideState) : Nat × SideBySideState :=
  let s1 := ensureOutputsTopSBS s
  (max ((s1.originalOutputsTop.map getTotalValue).getD 0)
       ((s1.modifiedOutputsTop.map getTotalValue).getD 0), s1)

/-- `SideBySideCellDiffViewModel.layoutChange`: `ensureOutputsTop`,
recompute `outputHeight` (0 when collapsed, else
`getOutputTotalHeight()`), rebuild `_layoutInfo` with only that field
changed, and fire `{}`. -/
def layoutChangeSBS (s : SideBySideState) :
    SideBySideState × List CellDiffViewModelLayoutChangeEvent :=
  let s1 := ensureOutputsTopSBS s
  if s1.outputFoldingState = PropertyFoldingState.Collapsed then
    ({ s1 with layoutInfo := { s1.layoutInfo with outputHeight := 0 } },
     [blankEvent])
  else
    let r := getOutputTotalHeightSBS s1
    ({ r.2 with layoutInfo := { r.2.layoutInfo with outputHeight := r.1 } },
     [blankEvent])

/-- `SideBySideCellDiffViewModel.updateOutputHeight(original, index,
height)`: bounds-check the collection of the addressed side, ensure
both trackers, write the collection entry of that side, `changeValue`
on that side's tracker (the `!` dereference), and call `layoutChange`
exactly when the tracker reports a change. -/
def updateOutputHeightSBS (s : SideBySideState) (original : Bool)
    (index height : Nat) :
    Except CellError Unit × SideBySideState
      × List CellDiffViewModelLayoutChangeEvent :=
  if original then
    if s.originalOutputCollection.length ≤ index then
      (Except.error CellError.outOfRange, s, [])
    else
      let s1 := ensureModifiedOutputsTop (ensureOriginalOutputsTop s)
      let s2 := { s1 with
        originalOutputCollection :=
          s1.originalOutputCollection.set index (some height) }
      match s2.originalOutputsTop with
      | none => (Except.error CellError.nullDeref, s2, [])
      | some ps =>
        let r := changeValue ps index height
        let s3 := { s2 with originalOutputsTop := some r.2 }
        if r.1 then
          let lc := layoutChangeSBS s3
          (Except.ok (), lc.1, lc.2)
        else
          (Except.ok (), s3, [])
  else
    if s.modifiedOutputCollection.length ≤ index then
      (Except.error CellError.outOfRange, s, [])
    else
      let s1 := ensureModifiedOutputsTop (ensureOriginalOutputsTop s)
      let s2 := { s1 with
        modifiedOutputCollection :=
          s1.modifiedOutputCollection.set index (some height) }
      match s2.modifiedOutputsTop with
      | none => (Except.error CellError.nullDeref, s2, [])
      | some ps =>
        let r := changeValue ps index height
        let s3 := { s2 with modifiedOutputsTop := some r.2 }
        if r.1 then
          let lc := layoutChangeSBS s3
          (Except.ok (), lc.1, lc.2)
        else
          (Except.ok (), s3, [])

/-- `SideBySideCellDiffViewModel.getOutputOffsetInContainer(original,
index)`: `ensureOutputsTop` first, then bounds-check the addressed
side, then `getAccumulatedValue(index - 1)` on that side's tracker
(the `!` dereference). -/
def getOutputOffsetInContainerSBS (s : SideBySideState) (original : Bool)
    (index : Nat) : Except CellError Nat × SideBySideState :=
  let s1 := ensureOutputsTopSBS s
  if original then
    if s1.originalOutputCollection.length ≤ index then
      (Except.error CellError.outOfRange, s1)
    else
      match s1.originalOutputsTop with
      | none => (Except.error CellError.nullDeref, s1)
      | some ps => (Except.ok (getAccumulatedValueExcl ps index), s1)
  else
    if s1.modifiedOutputCollection.length ≤ index then
      (Except.error CellError.outOfRange, s1)
    else
      match s1.modifiedOutputsTop with
      | none => (Except.error CellError.nullDeref, s1)
      | some ps => (Except.ok (getAccumulatedValueExcl ps index), s1)

/-- The tracker invariant for the side-by-side variant: each of the two
trackers is either absent or holds exactly the values of its backing
collection. -/
def sbsInv (s : SideBySideState) : Prop :=
  (∀ ps, s.originalOutputsTop = some ps →
    ps = collectionHeights s.originalOutputCollection)
  ∧ (∀ ps, s.modifiedOutputsTop = some ps →
    ps = collectionHeights s.modifiedOutputCollection)

/-- The transient-metadata policy of the hosting document
(`documentTextModel.transientOptions.transientMetadata`): which
metadata keys are excluded from comparison. -/
def TransientPolicy := String → Bool

/-- Modelled from the spec: the formatted textual metadata snapshot
produced by `getFormatedMetadataJSON`.  The JSON stringify/format/edit
utilities (`vs/base/common`) are outside this fragment, so the snapshot
is modelled structurally as the data the source serialises: the
`language` tag followed by the filtered metadata entries, in order
(`{ language, ...filteredMetadata }`).  The `NotebookCellMetadata` type
(also outside this fragment) has no `language` key, so the tag never
collides with a metadata entry. -/
structure MetadataSnapshot where
  language : Option String
  fields : List (String × String)
deriving DecidableEq, Repr

/-- `getFormatedMetadataJSON(documentTextModel, metadata, language)`:
when a document model is present, keep exactly the metadata entries
whose key the transient policy does not mark; when it is absent
(falsy), keep the metadata unfiltered.  The result combines the
language tag with the filtered entries. -/
def getFormatedMetadataJSON (documentTextModel : Option TransientPolicy)
    (metadata : List (String × String)) (language : Option String) :
    MetadataSnapshot :=
  match documentTextModel with
  | some transientMetadata =>
    { language := language,
      fields := metadata.filter (fun kv => !(transientMetadata kv.1)) }
  | none => { language := language, fields := metadata }

/-- `SideBySideCellDiffViewModel.checkMetadataIfModified`: compare the
hashes (`vs/base/common/hash`, outside this fragment, modelled as an
arbitrary function `hashFn`) of the formatted metadata snapshots of the
original and modified cells. -/
def checkMetadataIfModified (hashFn : MetadataSnapshot → Nat)
    (documentTextModel : Option TransientPolicy)
    (origMeta modMeta : List (String × String))
    (origLang modLang : Option String) : Bool :=
  hashFn (getFormatedMetadataJSON documentTextModel origMeta origLang)
    != hashFn (getFormatedMetadataJSON documentTextModel modMeta modLang)

theorem collectionHeights_set (c : List (Option Nat)) (i h : Nat) :
    collectionHeights (c.set i (some h)) = (collectionHeights c).set i h := by
  simp [collectionHeights]

theorem collectionHeights_length (c : List (Option Nat)) :
    (collectionHeights c).length = c.length := by
  simp [collectionHeights]

theorem collectionHeights_replicate (n : Nat) :
    collectionHeights (List.replicate n none) = List.replicate n 0 := by
  simp [collectionHeights]

theorem trackerInv_init (n : Nat) : trackerInv (initSingleSide n) := by
  intro ps hps
  simp [initSingleSide] at hps

theorem ensureOutputsTop_eq (s : SingleSideState) (hinv : trackerInv s) :
    ensureOutputsTop s
      = { s with outputsTop := some (collectionHeights s.outputCollection) } := by
  obtain ⟨c, t, li, fs⟩ := s
  cases t with
  | none => rfl
  | some ps =>
    have h : ps = collectionHeights c := hinv ps rfl
    subst h
    rfl

theorem ensureOutputsTop_outputCollection (s : SingleSideState) :
    (ensureOutputsTop s).outputCollection = s.outputCollection := by
  obtain ⟨c, t, li, fs⟩ := s
  cases t <;> rfl

theorem ensureOutputsTop_isSome (s : SingleSideState) :
    (ensureOutputsTop s).outputsTop.isSome = true := by
  obtain ⟨c, t, li, fs⟩ := s
  cases t <;> rfl

theorem ensureOutputsTop_idem (s : SingleSideState) :
    ensureOutputsTop (ensureOutputsTop s) = ensureOutputsTop s := by
  obtain ⟨c, t, li, fs⟩ := s
  cases t <;> rfl

theorem ensureOutputsTop_trackerInv (s : SingleSideState) (hinv : trackerInv s) :
    trackerInv (ensureOutputsTop s) := by
  rw [ensureOutputsTop_eq s hinv]
  intro ps hps
  cases hps
  rfl

theorem layoutChange_outputCollection (s : SingleSideState) :
    (layoutChange s).1.outputCollection = s.outputCollection := by
  obtain ⟨c, t, li, fs⟩ := s
  cases t <;> cases fs <;> rfl

theorem layoutChange_outputsTop (s : SingleSideState) :
    (layoutChange s).1.outputsTop = (ensureOutputsTop s).outputsTop := by
  obtain ⟨c, t, li, fs⟩ := s
  cases t <;> cases fs <;> rfl

theorem layoutChange_outputFoldingState (s : SingleSideState) :
    (layoutChange s).1.outputFoldingState = s.outputFoldingState := by
  obtain ⟨c, t, li, fs⟩ := s
  cases t <;> cases fs <;> rfl

theorem layoutChange_events (s : SingleSideState) :
    (layoutChange s).2 = [blankEvent] := by
  obtain ⟨c, t, li, fs⟩ := s
  cases t <;> cases fs <;> rfl

theorem layoutChange_trackerInv (s : SingleSideState) (hinv : trackerInv s) :
    trackerInv (layoutChange s).1 := by
  intro ps hps
  rw [layoutChange_outputsTop] at hps
  rw [layoutChange_outputCollection]
  have h2 := ensureOutputsTop_trackerInv s hinv ps hps
  rwa [ensureOutputsTop_outputCollection] at h2

theorem updateOutputHeight_eq_of_lt (s : SingleSideState) (i h : Nat)
    (hi : i < s.outputCollection.length) (hinv : trackerInv s) :
    updateOutputHeight s i h =
      (if (collectionHeights s.outputCollection).getD i 0 != h then
        (Except.ok (),
         layoutChange { s with
            outputCollection := s.outputCollection.set i (some h),
            outputsTop := some ((collectionHeights s.outputCollection).set i h) })
      else
        (Except.ok (),
         { s with
            outputCollection := s.outputCollection.set i (some h),
            outputsTop := some ((collectionHeights s.outputCollection).set i h) },
         [])) := by
  have hlen : ¬ (s.outputCollection.length ≤ i) := Nat.not_le.mpr hi
  unfold updateOutputHeight
  rw [if_neg hlen, ensureOutputsTop_eq s hinv]
  rfl

theorem trackerInv_setBoth (s : SingleSideState) (i h : Nat) :
    trackerInv { s with
      outputCollection := s.outputCollection.set i (some h),
      outputsTop := some ((collectionHeights s.outputCollection).set i h) } := by
  intro ps hps
  cases hps
  rw [collectionHeights_set]

theorem updateOutputHeight_ok (s : SingleSideState) (i h : Nat)
    (hi : i < s.outputCollection.length) (hinv : trackerInv s) :
    (updateOutputHeight s i h).1 = Except.ok ()
      ∧ (updateOutputHeight s i h).2.1.outputCollection
          = s.outputCollection.set i (some h)
      ∧ trackerInv (updateOutputHeight s i h).2.1
      ∧ (updateOutputHeight s i h).2.1.outputFoldingState
          = s.outputFoldingState := by
  rw [updateOutputHeight_eq_of_lt s i h hi hinv]
  by_cases hch : ((collectionHeights s.outputCollection).getD i 0 != h) = true
  · rw [if_pos hch]
    refine ⟨rfl, ?_, ?_, ?_⟩
    · rw [layoutChange_outputCollection]
    · exact layoutChange_trackerInv _ (trackerInv_setBoth s i h)
    · rw [layoutChange_outputFoldingState]
  · rw [if_neg hch]
    exact ⟨rfl, rfl, trackerInv_setBoth s i h, rfl⟩

theorem getOutputOffset_of_inv (s : SingleSideState) (i : Nat)
    (hi : i < s.outputCollection.length) (hinv : trackerInv s) :
    (getOutputOffsetInContainer s i).1
      = Except.ok ((collectionHeights s.outputCollection).take i).sum := by
  have hlen : ¬ ((ensureOutputsTop s).outputCollection.length ≤ i) := by
    rw [ensureOutputsTop_outputCollection]
    exact Nat.not_le.mpr hi
  unfold getOutputOffsetInContainer
  rw [ensureOutputsTop_eq s hinv] at hlen ⊢
  rw [if_neg hlen]
  rfl

theorem getOutputTotalHeight_of_inv (s : SingleSideState) (hinv : trackerInv s) :
    (getOutputTotalHeight s).1 = (collectionHeights s.outputCollection).sum := by
  unfold getOutputTotalHeight
  rw [ensureOutputsTop_eq s hinv]
  rfl

theorem applyUpdates_spec (us : List (Nat × Nat)) :
    ∀ s : SingleSideState, trackerInv s →
      (∀ u ∈ us, u.1 < s.outputCollection.length) →
      trackerInv (applyUpdates s us)
      ∧ (applyUpdates s us).outputCollection.length
          = s.outputCollection.length
      ∧ collectionHeights (applyUpdates s us).outputCollection
          = us.foldl (fun l u => l.set u.1 u.2)
              (collectionHeights s.outputCollection) := by
  induction us with
  | nil => intro s hinv _; exact ⟨hinv, rfl, rfl⟩
  | cons u rest ih =>
    intro s hinv hus
    have hu : u.1 < s.outputCollection.length :=
      hus u (List.mem_cons_self u rest)
    obtain ⟨_, hcoll, hinv', _⟩ := updateOutputHeight_ok s u.1 u.2 hu hinv
    have hlen' : (updateOutputHeight s u.1 u.2).2.1.outputCollection.length
        = s.outputCollection.length := by
      rw [hcoll, List.length_set]
    have hrest : ∀ v ∈ rest,
        v.1 < (updateOutputHeight s u.1 u.2).2.1.outputCollection.length := by
      intro v hv
      rw [hlen']
      exact hus v (List.mem_cons_of_mem u hv)
    obtain ⟨r1, r2, r3⟩ := ih (updateOutputHeight s u.1 u.2).2.1 hinv' hrest
    have happ : applyUpdates s (u :: rest)
        = applyUpdates (updateOutputHeight s u.1 u.2).2.1 rest := rfl
    refine ⟨happ ▸ r1, ?_, ?_⟩
    · rw [happ, r2, hlen']
    · rw [happ, r3, hcoll, collectionHeights_set]
      rfl

theorem updateOutputHeight_oob (s : SingleSideState) (i h : Nat)
    (hle : s.outputCollection.length ≤ i) :
    updateOutputHeight s i h = (Except.error CellError.outOfRange, s, []) := by
  unfold updateOutputHeight
  rw [if_pos hle]

theorem updateOutputHeight_ok_fst (s : SingleSideState) (i h : Nat)
    (hi : i < s.outputCollection.length) :
    (updateOutputHeight s i h).1 = Except.ok () := by
  obtain ⟨c, t, li, fs⟩ := s
  have hlen : ¬ (c.length ≤ i) := Nat.not_le.mpr hi
  cases t <;> simp [updateOutputHeight, ensureOutputsTop, hlen] <;> split <;> rfl

theorem getOutputOffset_oob (s : SingleSideState) (i : Nat)
    (hle : s.outputCollection.length ≤ i) :
    (getOutputOffsetInContainer s i).1 = Except.error CellError.outOfRange := by
  obtain ⟨c, t, li, fs⟩ := s
  cases t <;> simp [getOutputOffsetInContainer, ensureOutputsTop, hle]

theorem getOutputOffset_ok_exists (s : SingleSideState) (i : Nat)
    (hi : i < s.outputCollection.length) :
    ∃ v, (getOutputOffsetInContainer s i).1 = Except.ok v := by
  obtain ⟨c, t, li, fs⟩ := s
  have hlen : ¬ (c.length ≤ i) := Nat.not_le.mpr hi
  cases t <;> simp [getOutputOffsetInContainer, ensureOutputsTop, hlen]

theorem getOutputOffset_snd (s : SingleSideState) (i : Nat) :
    (getOutputOffsetInContainer s i).2 = ensureOutputsTop s := by
  obtain ⟨c, t, li, fs⟩ := s
  by_cases hle : c.length ≤ i <;>
    cases t <;> simp [getOutputOffsetInContainer, ensureOutputsTop, hle]

theorem sbsInv_init (nOrig nMod : Nat) (fs : PropertyFoldingState) :
    sbsInv (initSideBySide nOrig nMod fs) := by
  constructor <;> intro ps hps <;> simp [initSideBySide] at hps

theorem ensureMO_eq (s : SideBySideState) (hinv : sbsInv s) :
    ensureModifiedOutputsTop (ensureOriginalOutputsTop s)
      = { s with
          originalOutputsTop := some (collectionHeights s.originalOutputCollection),
          modifiedOutputsTop := some (collectionHeights s.modifiedOutputCollection) } := by
  obtain ⟨co, tO, cm, tM, li, fs⟩ := s
  obtain ⟨h1, h2⟩ := hinv
  cases tO with
  | none =>
    cases tM with
    | none => rfl
    | some pm =>
      have h : pm = collectionHeights cm := h2 pm rfl
      subst h
      rfl
  | some po =>
    have h : po = collectionHeights co := h1 po rfl
    subst h
    cases tM with
    | none => rfl
    | some pm =>
      have h' : pm = collectionHeights cm := h2 pm rfl
      subst h'
      rfl

theorem ensureOutputsTopSBS_eq (s : SideBySideState) (hinv : sbsInv s) :
    ensureOutputsTopSBS s
      = { s with
          originalOutputsTop := some (collectionHeights s.originalOutputCollection),
          modifiedOutputsTop := some (collectionHeights s.modifiedOutputCollection) } :=
  ensureMO_eq s hinv

theorem ensureMO_originalOutputCollection (s : SideBySideState) :
    (ensureModifiedOutputsTop (ensureOriginalOutputsTop s)).originalOutputCollection
      = s.originalOutputCollection := by
  obtain ⟨co, tO, cm, tM, li, fs⟩ := s
  cases tO <;> cases tM <;> rfl

theorem ensureMO_modifiedOutputCollection (s : SideBySideState) :
    (ensureModifiedOutputsTop (ensureOriginalOutputsTop s)).modifiedOutputCollection
      = s.modifiedOutputCollection := by
  obtain ⟨co, tO, cm, tM, li, fs⟩ := s
  cases tO <;> cases tM <;> rfl

theorem ensureMO_sbsInv (s : SideBySideState) (hinv : sbsInv s) :
    sbsInv (ensureModifiedOutputsTop (ensureOriginalOutputsTop s)) := by
  rw [ensureMO_eq s hinv]
  constructor <;> intro ps hps <;> cases hps <;> rfl

theorem layoutChangeSBS_originalOutputCollection (s : SideBySideState) :
    (layoutChangeSBS s).1.originalOutputCollection = s.originalOutputCollection := by
  obtain ⟨co, tO, cm, tM, li, fs⟩ := s
  cases tO <;> cases tM <;> cases fs <;> rfl

theorem layoutChangeSBS_modifiedOutputCollection (s : SideBySideState) :
    (layoutChangeSBS s).1.modifiedOutputCollection = s.modifiedOutputCollection := by
  obtain ⟨co, tO, cm, tM, li, fs⟩ := s
  cases tO <;> cases tM <;> cases fs <;> rfl

theorem layoutChangeSBS_originalOutputsTop (s : SideBySideState) :
    (layoutChangeSBS s).1.originalOutputsTop
      = (ensureOutputsTopSBS s).originalOutputsTop := by
  obtain ⟨co, tO, cm, tM, li, fs⟩ := s
  cases tO <;> cases tM <;> cases fs <;> rfl

theorem layoutChangeSBS_modifiedOutputsTop (s : SideBySideState) :
    (layoutChangeSBS s).1.modifiedOutputsTop
      = (ensureOutputsTopSBS s).modifiedOutputsTop := by
  obtain ⟨co, tO, cm, tM, li, fs⟩ := s
  cases tO <;> cases tM <;> cases fs <;> rfl

theorem layoutChangeSBS_outputFoldingState (s : SideBySideState) :
    (layoutChangeSBS s).1.outputFoldingState = s.outputFoldingState := by
  obtain ⟨co, tO, cm, tM, li, fs⟩ := s
  cases tO <;> cases tM <;> cases fs <;> rfl

theorem layoutChangeSBS_events (s : SideBySideState) :
    (layoutChangeSBS s).2 = [blankEvent] := by
  obtain ⟨co, tO, cm, tM, li, fs⟩ := s
  cases tO <;> cases tM <;> cases fs <;> rfl

theorem ensureOutputsTopSBS_collections (s : SideBySideState) :
    (ensureOutputsTopSBS s).originalOutputCollection = s.originalOutputCollection
    ∧ (ensureOutputsTopSBS s).modifiedOutputCollection = s.modifiedOutputCollection := by
  obtain ⟨co, tO, cm, tM, li, fs⟩ := s
  cases tO <;> cases tM <;> exact ⟨rfl, rfl⟩

theorem ensureOutputsTopSBS_sbsInv (s : SideBySideState) (hinv : sbsInv s) :
    sbsInv (ensureOutputsTopSBS s) := ensureMO_sbsInv s hinv

theorem layoutChangeSBS_sbsInv (s : SideBySideState) (hinv : sbsInv s) :
    sbsInv (layoutChangeSBS s).1 := by
  have h := ensureOutputsTopSBS_sbsInv s hinv
  have hc := ensureOutputsTopSBS_collections s
  constructor
  · intro ps hps
    rw [layoutChangeSBS_originalOutputsTop] at hps
    rw [layoutChangeSBS_originalOutputCollection]
    have := h.1 ps hps
    rwa [hc.1] at this
  · intro ps hps
    rw [layoutChangeSBS_modifiedOutputsTop] at hps
    rw [layoutChangeSBS_modifiedOutputCollection]
    have := h.2 ps hps
    rwa [hc.2] at this

theorem updateOutputHeightSBS_eq_orig (s : SideBySideState) (i h : Nat)
    (hi : i < s.originalOutputCollection.length) (hinv : sbsInv s) :
    updateOutputHeightSBS s true i h =
      (if (collectionHeights s.originalOutputCollection).getD i 0 != h then
        (Except.ok (), layoutChangeSBS { s with
          originalOutputCollection := s.originalOutputCollection.set i (some h),
          originalOutputsTop :=
            some ((collectionHeights s.originalOutputCollection).set i h),
          modifiedOutputsTop :=
            some (collectionHeights s.modifiedOutputCollection) })
      else
        (Except.ok (), { s with
          originalOutputCollection := s.originalOutputCollection.set i (some h),
          originalOutputsTop :=
            some ((collectionHeights s.originalOutputCollection).set i h),
          modifiedOutputsTop :=
            some (collectionHeights s.modifiedOutputCollection) }, [])) := by
  have hlen : ¬ (s.originalOutputCollection.length ≤ i) := Nat.not_le.mpr hi
  unfold updateOutputHeightSBS
  rw [if_pos rfl, if_neg hlen, ensureMO_eq s hinv]
  rfl

theorem updateOutputHeightSBS_eq_mod (s : SideBySideState) (i h : Nat)
    (hi : i < s.modifiedOutputCollection.length) (hinv : sbsInv s) :
    updateOutputHeightSBS s false i h =
      (if (collectionHeights s.modifiedOutputCollection).getD i 0 != h then
        (Except.ok (), layoutChangeSBS { s with
          modifiedOutputCollection := s.modifiedOutputCollection.set i (some h),
          originalOutputsTop :=
            some (collectionHeights s.originalOutputCollection),
          modifiedOutputsTop :=
            some ((collectionHeights s.modifiedOutputCollection).set i h) })
      else
        (Except.ok (), { s with
          modifiedOutputCollection := s.modifiedOutputCollection.set i (some h),
          originalOutputsTop :=
            some (collectionHeights s.originalOutputCollection),
          modifiedOutputsTop :=
            some ((collectionHeights s.modifiedOutputCollection).set i h) }, [])) := by
  have hlen : ¬ (s.modifiedOutputCollection.length ≤ i) := Nat.not_le.mpr hi
  unfold updateOutputHeightSBS
  rw [if_neg Bool.false_ne_true, if_neg hlen, ensureMO_eq s hinv]
  rfl

theorem sbsInv_setOrig (s : SideBySideState) (i h : Nat) :
    sbsInv { s with
      originalOutputCollection := s.originalOutputCollection.set i (some h),
      originalOutputsTop :=
        some ((collectionHeights s.originalOutputCollection).set i h),
      modifiedOutputsTop :=
        some (collectionHeights s.modifiedOutputCollection) } := by
  constructor
  · intro ps hps
    cases hps
    rw [collectionHeights_set]
  · intro ps hps
    cases hps
    rfl

theorem sbsInv_setMod (s : SideBySideState) (i h : Nat) :
    sbsInv { s with
      modifiedOutputCollection := s.modifiedOutputCollection.set i (some h),
      originalOutputsTop :=
        some (collectionHeights s.originalOutputCollection),
      modifiedOutputsTop :=
        some ((collectionHeights s.modifiedOutputCollection).set i h) } := by
  constructor
  · intro ps hps
    cases hps
    rfl
  · intro ps hps
    cases hps
    rw [collectionHeights_set]

theorem updateOutputHeightSBS_orig_ok (s : SideBySideState) (i h : Nat)
    (hi : i < s.originalOutputCollection.length) (hinv : sbsInv s) :
    (updateOutputHeightSBS s true i h).1 = Except.ok ()
    ∧ (updateOutputHeightSBS s true i h).2.1.originalOutputCollection
        = s.originalOutputCollection.set i (some h)
    ∧ (updateOutputHeightSBS s true i h).2.1.modifiedOutputCollection
        = s.modifiedOutputCollection
    ∧ sbsInv (updateOutputHeightSBS s true i h).2.1
    ∧ (updateOutputHeightSBS s true i h).2.1.outputFoldingState
        = s.outputFoldingState := by
  rw [updateOutputHeightSBS_eq_orig s i h hi hinv]
  by_cases hch : ((collectionHeights s.originalOutputCollection).getD i 0 != h) = true
  · rw [if_pos hch]
    refine ⟨rfl, ?_, ?_, ?_, ?_⟩
    · rw [layoutChangeSBS_originalOutputCollection]
    · rw [layoutChangeSBS_modifiedOutputCollection]
    · exact layoutChangeSBS_sbsInv _ (sbsInv_setOrig s i h)
    · rw [layoutChangeSBS_outputFoldingState]
  · rw [if_neg hch]
    exact ⟨rfl, rfl, rfl, sbsInv_setOrig s i h, rfl⟩

theorem updateOutputHeightSBS_mod_ok (s : SideBySideState) (i h : Nat)
    (hi : i < s.modifiedOutputCollection.length) (hinv : sbsInv s) :
    (updateOutputHeightSBS s false i h).1 = Except.ok ()
    ∧ (updateOutputHeightSBS s false i h).2.1.originalOutputCollection
        = s.originalOutputCollection
    ∧ (updateOutputHeightSBS s false i h).2.1.modifiedOutputCollection
        = s.modifiedOutputCollection.set i (some h)
    ∧ sbsInv (updateOutputHeightSBS s false i h).2.1
    ∧ (updateOutputHeightSBS s false i h).2.1.outputFoldingState
        = s.outputFoldingState := by
  rw [updateOutputHeightSBS_eq_mod s i h hi hinv]
  by_cases hch : ((collectionHeights s.modifiedOutputCollection).getD i 0 != h) = true
  · rw [if_pos hch]
    refine ⟨rfl, ?_, ?_, ?_, ?_⟩
    · rw [layoutChangeSBS_originalOutputCollection]
    · rw [layoutChangeSBS_modifiedOutputCollection]
    · exact layoutChangeSBS_sbsInv _ (sbsInv_setMod s i h)
    · rw [layoutChangeSBS_outputFoldingState]
  · rw [if_neg hch]
    exact ⟨rfl, rfl, rfl, sbsInv_setMod s i h, rfl⟩

theorem updateOutputHeightSBS_orig_oob (s : SideBySideState) (i h : Nat)
    (hle : s.originalOutputCollection.length ≤ i) :
    updateOutputHeightSBS s true i h
      = (Except.error CellError.outOfRange, s, []) := by
  unfold updateOutputHeightSBS
  rw [if_pos rfl, if_pos hle]

theorem updateOutputHeightSBS_mod_oob (s : SideBySideState) (i h : Nat)
    (hle : s.modifiedOutputCollection.length ≤ i) :
    updateOutputHeightSBS s false i h
      = (Except.error CellError.outOfRange, s, []) := by
  unfold updateOutputHeightSBS
  rw [if_neg Bool.false_ne_true, if_pos hle]

theorem updateOutputHeightSBS_orig_ok_fst (s : SideBySideState) (i h : Nat)
    (hi : i < s.originalOutputCollection.length) :
    (updateOutputHeightSBS s true i h).1 = Except.ok () := by
  obtain ⟨co, tO, cm, tM, li, fs⟩ := s
  have hlen : ¬ (co.length ≤ i) := Nat.not_le.mpr hi
  cases tO <;> cases tM <;>
    simp [updateOutputHeightSBS, ensureOriginalOutputsTop,
      ensureModifiedOutputsTop, hlen] <;> split <;> rfl

theorem updateOutputHeightSBS_mod_ok_fst (s : SideBySideState) (i h : Nat)
    (hi : i < s.modifiedOutputCollection.length) :
    (updateOutputHeightSBS s false i h).1 = Except.ok () := by
  obtain ⟨co, tO, cm, tM, li, fs⟩ := s
  have hlen : ¬ (cm.length ≤ i) := Nat.not_le.mpr hi
  cases tO <;> cases tM <;>
    simp [updateOutputHeightSBS, ensureOriginalOutputsTop,
      ensureModifiedOutputsTop, hlen] <;> split <;> rfl

theorem getOutputOffsetSBS_orig_oob (s : SideBySideState) (i : Nat)
    (hle : s.originalOutputCollection.length ≤ i) :
    (getOutputOffsetInContainerSBS s true i).1
      = Except.error CellError.outOfRange := by
  obtain ⟨co, tO, cm, tM, li, fs⟩ := s
  cases tO <;> cases tM <;>
    simp [getOutputOffsetInContainerSBS, ensureOutputsTopSBS,
      ensureOriginalOutputsTop, ensureModifiedOutputsTop, hle]

theorem getOutputOffsetSBS_mod_oob (s : SideBySideState) (i : Nat)
    (hle : s.modifiedOutputCollection.length ≤ i) :
    (getOutputOffsetInContainerSBS s false i).1
      = Except.error CellError.outOfRange := by
  obtain ⟨co, tO, cm, tM, li, fs⟩ := s
  cases tO <;> cases tM <;>
    simp [getOutputOffsetInContainerSBS, ensureOutputsTopSBS,
      ensureOriginalOutputsTop, ensureModifiedOutputsTop, hle]

theorem getOutputOffsetSBS_orig_ok_exists (s : SideBySideState) (i : Nat)
    (hi : i < s.originalOutputCollection.length) :
    ∃ v, (getOutputOffsetInContainerSBS s true i).1 = Except.ok v := by
  obtain ⟨co, tO, cm, tM, li, fs⟩ := s
  have hlen : ¬ (co.length ≤ i) := Nat.not_le.mpr hi
  cases tO <;> cases tM <;>
    simp [getOutputOffsetInContainerSBS, ensureOutputsTopSBS,
      ensureOriginalOutputsTop, ensureModifiedOutputsTop, hlen]

theorem getOutputOffsetSBS_mod_ok_exists (s : SideBySideState) (i : Nat)
    (hi : i < s.modifiedOutputCollection.length) :
    ∃ v, (getOutputOffsetInContainerSBS s false i).1 = Except.ok v := by
  obtain ⟨co, tO, cm, tM, li, fs⟩ := s
  have hlen : ¬ (cm.length ≤ i) := Nat.not_le.mpr hi
  cases tO <;> cases tM <;>
    simp [getOutputOffsetInContainerSBS, ensureOutputsTopSBS,
      ensureOriginalOutputsTop, ensureModifiedOutputsTop, hlen]

theorem getOutputOffsetSBS_orig_of_inv (s : SideBySideState) (i : Nat)
    (hi : i < s.originalOutputCollection.length) (hinv : sbsInv s) :
    (getOutputOffsetInContainerSBS s true i).1
      = Except.ok ((collectionHeights s.originalOutputCollection).take i).sum := by
  obtain ⟨co, tO, cm, tM, li, fs⟩ := s
  obtain ⟨h1, h2⟩ := hinv
  have hlen : ¬ (co.length ≤ i) := Nat.not_le.mpr hi
  cases tO with
  | none =>
    cases tM with
    | none =>
      simp [getOutputOffsetInContainerSBS, ensureOutputsTopSBS,
        ensureOriginalOutputsTop, ensureModifiedOutputsTop, hlen,
        getAccumulatedValueExcl]
    | some pm =>
      have h : pm = collectionHeights cm := h2 pm rfl
      subst h
      simp [getOutputOffsetInContainerSBS, ensureOutputsTopSBS,
        ensureOriginalOutputsTop, ensureModifiedOutputsTop, hlen,
        getAccumulatedValueExcl]
  | some po =>
    have h : po = collectionHeights co := h1 po rfl
    subst h
    cases tM with
    | none =>
      simp [getOutputOffsetInContainerSBS, ensureOutputsTopSBS,
        ensureOriginalOutputsTop, ensureModifiedOutputsTop, hlen,
        getAccumulatedValueExcl]
    | some pm =>
      have h' : pm = collectionHeights cm := h2 pm rfl
      subst h'
      simp [getOutputOffsetInContainerSBS, ensureOutputsTopSBS,
        ensureOriginalOutputsTop, ensureModifiedOutputsTop, hlen,
        getAccumulatedValueExcl]

theorem getOutputOffsetSBS_mod_of_inv (s : SideBySideState) (i : Nat)
    (hi : i < s.modifiedOutputCollection.length) (hinv : sbsInv s) :
    (getOutputOffsetInContainerSBS s false i).1
      = Except.ok ((collectionHeights s.modifiedOutputCollection).take i).sum := by
  obtain ⟨co, tO, cm, tM, li, fs⟩ := s
  obtain ⟨h1, h2⟩ := hinv
  have hlen : ¬ (cm.length ≤ i) := Nat.not_le.mpr hi
  cases tO with
  | none =>
    cases tM with
    | none =>
      simp [getOutputOffsetInContainerSBS, ensureOutputsTopSBS,
        ensureOriginalOutputsTop, ensureModifiedOutputsTop, hlen,
        getAccumulatedValueExcl]
    | some pm =>
      have h : pm = collectionHeights cm := h2 pm rfl
      subst h
      simp [getOutputOffsetInContainerSBS, ensureOutputsTopSBS,
        ensureOriginalOutputsTop, ensureModifiedOutputsTop, hlen,
        getAccumulatedValueExcl]
  | some po =>
    have h : po = collectionHeights co := h1 po rfl
    subst h
    cases tM with
    | none =>
      simp [getOutputOffsetInContainerSBS, ensureOutputsTopSBS,
        ensureOriginalOutputsTop, ensureModifiedOutputsTop, hlen,
        getAccumulatedValueExcl]
    | some pm =>
      have h' : pm = collectionHeights cm := h2 pm rfl
      subst h'
      simp [getOutputOffsetInContainerSBS, ensureOutputsTopSBS,
        ensureOriginalOutputsTop, ensureModifiedOutputsTop, hlen,
        getAccumulatedValueExcl]

theorem getOutputTotalHeightSBS_of_inv (s : SideBySideState) (hinv : sbsInv s) :
    (getOutputTotalHeightSBS s).1
      = max (collectionHeights s.originalOutputCollection).sum
          (collectionHeights s.modifiedOutputCollection).sum := by
  unfold getOutputTotalHeightSBS
  rw [ensureOutputsTopSBS_eq s hinv]
  rfl

theorem getOutputTotalHeightSBS_snd (s : SideBySideState) :
    (getOutputTotalHeightSBS s).2 = ensureOutputsTopSBS s := rfl

theorem getOutputOffsetSBS_snd (s : SideBySideState) (orig : Bool) (i : Nat) :
    (getOutputOffsetInContainerSBS s orig i).2 = ensureOutputsTopSBS s := by
  obtain ⟨co, tO, cm, tM, li, fs⟩ := s
  cases orig <;> cases tO <;> cases tM <;>
    by_cases hle1 : co.length ≤ i <;> by_cases hle2 : cm.length ≤ i <;>
    simp [getOutputOffsetInContainerSBS, ensureOutputsTopSBS,
      ensureOriginalOutputsTop, ensureModifiedOutputsTop, hle1, hle2]

/-- C1: For the single-side variant, for every valid index `i`, after
construction and any sequence of `updateOutputHeight` calls with valid
indices, `getOutputOffsetInContainer i` returns the sum of the most
recently set heights at indices `0 .. i-1` (a height never set counts
as 0), and `getOutputOffsetInContainer 0` returns 0, each update being
reflected exactly once. -/
theorem getOutputOffsetInContainer_reflects_updates (n : Nat)
    (us : List (Nat × Nat)) (i : Nat)
    (hus : ∀ u ∈ us, u.1 < n) (hi : i < n) :
    (getOutputOffsetInContainer (applyUpdates (initSingleSide n) us) i).1
      = Except.ok (((refHeights n us).take i).sum)
    ∧ (getOutputOffsetInContainer (applyUpdates (initSingleSide n) us) 0).1
      = Except.ok 0 := by
  have hlen0 : (initSingleSide n).outputCollection.length = n := by
    simp [initSingleSide]
  obtain ⟨hinv, hlen, hh⟩ := applyUpdates_spec us (initSingleSide n)
    (trackerInv_init n) (fun u hu => by rw [hlen0]; exact hus u hu)
  have hlen' : (applyUpdates (initSingleSide n) us).outputCollection.length
      = n := by rw [hlen, hlen0]
  have hrefl : collectionHeights
      (applyUpdates (initSingleSide n) us).outputCollection
        = refHeights n us := by
    rw [hh]
    simp only [initSingleSide, collectionHeights_replicate]
    rfl
  constructor
  · rw [getOutputOffset_of_inv _ i (by rw [hlen']; exact hi) hinv, hrefl]
  · rw [getOutputOffset_of_inv _ 0 (by rw [hlen']; omega) hinv, hrefl]
    simp

theorem getOutputOffsetInContainer_reflects_updates_witness :
    (getOutputOffsetInContainer
        (applyUpdates (initSingleSide 3) [(0, 5), (1, 7), (0, 2)]) 2).1
      = Except.ok 9
    ∧ (getOutputOffsetInContainer
        (applyUpdates (initSingleSide 3) [(0, 5), (1, 7), (0, 2)]) 0).1
      = Except.ok 0 := by
  have h := getOutputOffsetInContainer_reflects_updates 3
    [(0, 5), (1, 7), (0, 2)] 2 (by decide) (by decide)
  exact ⟨h.1.trans (congrArg Except.ok (by decide)), h.2⟩

/-- C2: For both variants, `updateOutputHeight` and
`getOutputOffsetInContainer` fail with the out-of-range error (the
thrown `Output index out of range!`) exactly when the index reaches the
length of the addressed output collection, on both the read and the
write path, and no other error ever occurs. -/
theorem outOfRange_error_characterization
    (s : SingleSideState) (s2 : SideBySideState) (orig : Bool) (i h : Nat) :
    (s.outputCollection.length ≤ i →
      (updateOutputHeight s i h).1 = Except.error CellError.outOfRange
      ∧ (getOutputOffsetInContainer s i).1 = Except.error CellError.outOfRange)
    ∧ (i < s.outputCollection.length →
      (updateOutputHeight s i h).1 = Except.ok ()
      ∧ ∃ v, (getOutputOffsetInContainer s i).1 = Except.ok v)
    ∧ ((if orig then s2.originalOutputCollection.length
        else s2.modifiedOutputCollection.length) ≤ i →
      (updateOutputHeightSBS s2 orig i h).1 = Except.error CellError.outOfRange
      ∧ (getOutputOffsetInContainerSBS s2 orig i).1
          = Except.error CellError.outOfRange)
    ∧ (i < (if orig then s2.originalOutputCollection.length
        else s2.modifiedOutputCollection.length) →
      (updateOutputHeightSBS s2 orig i h).1 = Except.ok ()
      ∧ ∃ v, (getOutputOffsetInContainerSBS s2 orig i).1 = Except.ok v) := by
  refine ⟨?_, ?_, ?_, ?_⟩
  · intro hle
    exact ⟨by rw [updateOutputHeight_oob s i h hle],
      getOutputOffset_oob s i hle⟩
  · intro hlt
    exact ⟨updateOutputHeight_ok_fst s i h hlt,
      getOutputOffset_ok_exists s i hlt⟩
  · intro hle
    cases orig
    · exact ⟨by rw [updateOutputHeightSBS_mod_oob s2 i h hle],
        getOutputOffsetSBS_mod_oob s2 i hle⟩
    · exact ⟨by rw [updateOutputHeightSBS_orig_oob s2 i h hle],
        getOutputOffsetSBS_orig_oob s2 i hle⟩
  · intro hlt
    cases orig
    · exact ⟨updateOutputHeightSBS_mod_ok_fst s2 i h hlt,
        getOutputOffsetSBS_mod_ok_exists s2 i hlt⟩
    · exact ⟨updateOutputHeightSBS_orig_ok_fst s2 i h hlt,
        getOutputOffsetSBS_orig_ok_exists s2 i hlt⟩

theorem outOfRange_error_characterization_witness :
    (updateOutputHeight (initSingleSide 1) 1 0).1
        = Except.error CellError.outOfRange
    ∧ (updateOutputHeight (initSingleSide 1) 0 4).1 = Except.ok () := by
  have hA := outOfRange_error_characterization (initSingleSide 1)
    (initSideBySide 1 1 PropertyFoldingState.Collapsed) true 1 0
  have hB := outOfRange_error_characterization (initSingleSide 1)
    (initSideBySide 1 1 PropertyFoldingState.Collapsed) true 0 4
  exact ⟨(hA.1 (by decide)).1, (hB.2.1 (by decide)).1⟩

/-- C3: For the side-by-side variant, after any single-side update with
a valid index, `getOutputTotalHeight` returns the maximum of the total
of the original-side output heights and the total of the modified-side
output heights. -/
theorem getOutputTotalHeightSBS_max_after_update (s : SideBySideState)
    (orig : Bool) (i h : Nat)
    (hi : i < (if orig then s.originalOutputCollection.length
        else s.modifiedOutputCollection.length))
    (hinv : sbsInv s) :
    (getOutputTotalHeightSBS (updateOutputHeightSBS s orig i h).2.1).1
      = max (collectionHeights
          (updateOutputHeightSBS s orig i h).2.1.originalOutputCollection).sum
        (collectionHeights
          (updateOutputHeightSBS s orig i h).2.1.modifiedOutputCollection).sum := by
  cases orig
  · obtain ⟨-, -, -, hinv', -⟩ := updateOutputHeightSBS_mod_ok s i h hi hinv
    exact getOutputTotalHeightSBS_of_inv _ hinv'
  · obtain ⟨-, -, -, hinv', -⟩ := updateOutputHeightSBS_orig_ok s i h hi hinv
    exact getOutputTotalHeightSBS_of_inv _ hinv'

theorem getOutputTotalHeightSBS_max_after_update_witness :
    (getOutputTotalHeightSBS
        (updateOutputHeightSBS
          (initSideBySide 1 1 PropertyFoldingState.Collapsed) false 0 2).2.1).1
      = 2 := by
  have h := getOutputTotalHeightSBS_max_after_update
    (initSideBySide 1 1 PropertyFoldingState.Collapsed) false 0 2
    (by decide) (sbsInv_init 1 1 PropertyFoldingState.Collapsed)
  exact h.trans (by decide)

/-- C4 counterexample: in the side-by-side variant
`getOutputTotalHeight` is not the sum of the per-output heights.  With
original heights `[1]` and modified heights `[2]` the total is `2`,
while the sum of all per-output heights is `3` and the sum of the
original side is `1`; with original `[3]` and modified `[1]` the total
is `3` while the sum of the modified side is `1`.  So the total
coincides with no fixed reading of "the cell's output collection". -/
theorem getOutputTotalHeight_sum_counterexample :
    (getOutputTotalHeightSBS
        (updateOutputHeightSBS
          ((updateOutputHeightSBS
            (initSideBySide 1 1 PropertyFoldingState.Collapsed) true 0 1).2.1)
          false 0 2).2.1).1 = 2
    ∧ ((collectionHeights
          (updateOutputHeightSBS
            ((updateOutputHeightSBS
              (initSideBySide 1 1 PropertyFoldingState.Collapsed) true 0 1).2.1)
            false 0 2).2.1.originalOutputCollection).sum
        + (collectionHeights
          (updateOutputHeightSBS
            ((updateOutputHeightSBS
              (initSideBySide 1 1 PropertyFoldingState.Collapsed) true 0 1).2.1)
            false 0 2).2.1.modifiedOutputCollection).sum) = 3
    ∧ (collectionHeights
          (updateOutputHeightSBS
            ((updateOutputHeightSBS
              (initSideBySide 1 1 PropertyFoldingState.Collapsed) true 0 1).2.1)
            false 0 2).2.1.originalOutputCollection).sum = 1
    ∧ (getOutputTotalHeightSBS
        (updateOutputHeightSBS
          ((updateOutputHeightSBS
            (initSideBySide 1 1 PropertyFoldingState.Collapsed) true 0 3).2.1)
          false 0 1).2.1).1 = 3
    ∧ (collectionHeights
          (updateOutputHeightSBS
            ((updateOutputHeightSBS
              (initSideBySide 1 1 PropertyFoldingState.Collapsed) true 0 3).2.1)
            false 0 1).2.1.modifiedOutputCollection).sum = 1 := by
  decide

/-- C4 amended: for the single-side variant `getOutputTotalHeight` is
the sum of all per-output heights of its collection; for the
side-by-side variant it is the maximum of the two per-side sums. -/
theorem getOutputTotalHeight_amended :
    (∀ s : SingleSideState, trackerInv s →
      (getOutputTotalHeight s).1 = (collectionHeights s.outputCollection).sum)
    ∧ (∀ s : SideBySideState, sbsInv s →
      (getOutputTotalHeightSBS s).1
        = max (collectionHeights s.originalOutputCollection).sum
            (collectionHeights s.modifiedOutputCollection).sum) :=
  ⟨fun s hs => getOutputTotalHeight_of_inv s hs,
   fun s hs => getOutputTotalHeightSBS_of_inv s hs⟩

theorem getOutputTotalHeight_amended_witness :
    (getOutputTotalHeight (initSingleSide 2)).1 = 0
    ∧ (getOutputTotalHeightSBS
        (initSideBySide 1 1 PropertyFoldingState.Collapsed)).1 = 0 := by
  have h := getOutputTotalHeight_amended
  exact ⟨(h.1 (initSingleSide 2) (trackerInv_init 2)).trans (by decide),
    (h.2 (initSideBySide 1 1 PropertyFoldingState.Collapsed)
      (sbsInv_init 1 1 PropertyFoldingState.Collapsed)).trans (by decide)⟩

/-- C5 counterexample: the `totalHeight` getter does not sum all fields
of the layout record: it omits `width`.  On the record with `width = 1`
and every other field `0`, `totalHeight` is `0` while the sum of all
fields is `1`. -/
theorem totalHeight_width_counterexample :
    totalHeight ⟨1, 0, 0, 0, 0, 0, 0, 0⟩ = 0
    ∧ sumAllLayoutFields ⟨1, 0, 0, 0, 0, 0, 0, 0⟩ = 1 := by
  decide

/-- C5 amended: for every state of the layout record, `totalHeight`
returns the sum of all fields of the record except `width`:
`totalHeight l + l.width` equals the sum of all fields. -/
theorem totalHeight_eq_sum_fields_without_width (l : LayoutInfo) :
    totalHeight l + l.width = sumAllLayoutFields l := by
  unfold totalHeight sumAllLayoutFields
  omega

/-- C6: For both variants, `updateOutputHeight` with a valid index
triggers a layout recompute (`layoutChange`, which fires one change
notification) if and only if the new height differs from the height
currently stored at that index (a height never set counting as 0);
when the height is unchanged, no notification is fired. -/
theorem updateOutputHeight_layoutChange_iff :
    (∀ (s : SingleSideState) (i h : Nat), i < s.outputCollection.length →
      trackerInv s →
      (updateOutputHeight s i h).2.2
        = (if (collectionHeights s.outputCollection).getD i 0 != h
            then [blankEvent] else []))
    ∧ (∀ (s : SideBySideState) (orig : Bool) (i h : Nat),
      i < (if orig then s.originalOutputCollection.length
          else s.modifiedOutputCollection.length) →
      sbsInv s →
      (updateOutputHeightSBS s orig i h).2.2
        = (if (collectionHeights (if orig then s.originalOutputCollection
              else s.modifiedOutputCollection)).getD i 0 != h
            then [blankEvent] else [])) := by
  constructor
  · intro s i h hi hinv
    rw [updateOutputHeight_eq_of_lt s i h hi hinv]
    by_cases hch : ((collectionHeights s.outputCollection).getD i 0 != h) = true
    · rw [if_pos hch, if_pos hch]
      exact layoutChange_events _
    · rw [if_neg hch, if_neg hch]
  · intro s orig i h hi hinv
    cases orig
    · rw [updateOutputHeightSBS_eq_mod s i h hi hinv,
        if_neg (show ¬ (false = true) by decide)]
      by_cases hch :
          ((collectionHeights s.modifiedOutputCollection).getD i 0 != h) = true
      · rw [if_pos hch, if_pos hch]
        exact layoutChangeSBS_events _
      · rw [if_neg hch, if_neg hch]
    · rw [updateOutputHeightSBS_eq_orig s i h hi hinv,
        if_pos (show true = true from rfl)]
      by_cases hch :
          ((collectionHeights s.originalOutputCollection).getD i 0 != h) = true
      · rw [if_pos hch, if_pos hch]
        exact layoutChangeSBS_events _
      · rw [if_neg hch, if_neg hch]

theorem updateOutputHeight_layoutChange_iff_witness :
    (updateOutputHeight (initSingleSide 1) 0 5).2.2 = [blankEvent]
    ∧ (updateOutputHeightSBS
        (initSideBySide 1 1 PropertyFoldingState.Collapsed) true 0 0).2.2
          = [] := by
  have h := updateOutputHeight_layoutChange_iff
  exact ⟨(h.1 (initSingleSide 1) 0 5 (by decide)
      (trackerInv_init 1)).trans (by decide),
    (h.2 (initSideBySide 1 1 PropertyFoldingState.Collapsed) true 0 0
      (by decide) (sbsInv_init 1 1 PropertyFoldingState.Collapsed)).trans
      (by decide)⟩

/-- C7: Every mutation through a layout-field setter (`outputHeight`,
`outputStatusHeight`, `editorHeight`, `editorMargin`,
`metadataHeight`) writes exactly its field and fires exactly one
layout-change notification, whose descriptor flags the affected
sub-regions: output editor + output view for `outputHeight`, editor
height for `editorHeight`, metadata editor for `metadataHeight`, and
none of the five flagged sub-regions for `outputStatusHeight` and
`editorMargin`. -/
theorem layout_setters_fire_one_event (l : LayoutInfo) (h : Nat) :
    (set_outputHeight l h).2
        = [{ blankEvent with outputEditor := true, outputView := true }]
    ∧ (set_outputStatusHeight l h).2 = [blankEvent]
    ∧ (set_editorHeight l h).2 = [{ blankEvent with editorHeight := true }]
    ∧ (set_editorMargin l h).2 = [blankEvent]
    ∧ (set_metadataHeight l h).2 = [{ blankEvent with metadataEditor := true }]
    ∧ (set_outputHeight l h).1 = { l with outputHeight := h }
    ∧ (set_outputStatusHeight l h).1 = { l with outputStatusHeight := h }
    ∧ (set_editorHeight l h).1 = { l with editorHeight := h }
    ∧ (set_editorMargin l h).1 = { l with editorMargin := h }
    ∧ (set_metadataHeight l h).1 = { l with metadataHeight := h } :=
  ⟨rfl, rfl, rfl, rfl, rfl, rfl, rfl, rfl, rfl, rfl⟩

/-- C8: The tracker invariant (each cumulative-offset tracker is absent
or holds exactly the values of its backing collection, unset entries as
0) holds after construction and is preserved by every operation; the
`ensure` methods construct the tracker; and no operation ever
dereferences an absent tracker (no operation can fail with the
null-dereference error). -/
theorem tracker_invariant_preserved :
    (∀ n, trackerInv (initSingleSide n))
    ∧ (∀ s, trackerInv s → trackerInv (ensureOutputsTop s)
        ∧ (ensureOutputsTop s).outputsTop.isSome = true)
    ∧ (∀ s i h, trackerInv s → trackerInv (updateOutputHeight s i h).2.1)
    ∧ (∀ s i, trackerInv s → trackerInv (getOutputOffsetInContainer s i).2)
    ∧ (∀ s, trackerInv s → trackerInv (getOutputTotalHeight s).2)
    ∧ (∀ s, trackerInv s → trackerInv (layoutChange s).1)
    ∧ (∀ s i h,
        (updateOutputHeight s i h).1 ≠ Except.error CellError.nullDeref)
    ∧ (∀ s i,
        (getOutputOffsetInContainer s i).1 ≠ Except.error CellError.nullDeref)
    ∧ (∀ nO nM fs, sbsInv (initSideBySide nO nM fs))
    ∧ (∀ s, sbsInv s → sbsInv (ensureOutputsTopSBS s))
    ∧ (∀ s orig i h, sbsInv s → sbsInv (updateOutputHeightSBS s orig i h).2.1)
    ∧ (∀ s orig i, sbsInv s →
        sbsInv (getOutputOffsetInContainerSBS s orig i).2)
    ∧ (∀ s, sbsInv s → sbsInv (getOutputTotalHeightSBS s).2)
    ∧ (∀ s, sbsInv s → sbsInv (layoutChangeSBS s).1)
    ∧ (∀ s orig i h,
        (updateOutputHeightSBS s orig i h).1 ≠ Except.error CellError.nullDeref)
    ∧ (∀ s orig i,
        (getOutputOffsetInContainerSBS s orig i).1
          ≠ Except.error CellError.nullDeref) := by
  refine ⟨trackerInv_init, ?_, ?_, ?_, ?_, ?_, ?_, ?_,
    sbsInv_init, ?_, ?_, ?_, ?_, ?_, ?_, ?_⟩
  · intro s hinv
    exact ⟨ensureOutputsTop_trackerInv s hinv, ensureOutputsTop_isSome s⟩
  · intro s i h hinv
    by_cases hle : s.outputCollection.length ≤ i
    · rw [updateOutputHeight_oob s i h hle]
      exact hinv
    · exact (updateOutputHeight_ok s i h (Nat.lt_of_not_le hle) hinv).2.2.1
  · intro s i hinv
    rw [getOutputOffset_snd]
    exact ensureOutputsTop_trackerInv s hinv
  · intro s hinv
    exact ensureOutputsTop_trackerInv s hinv
  · intro s hinv
    exact layoutChange_trackerInv s hinv
  · intro s i h
    by_cases hle : s.outputCollection.length ≤ i
    · rw [updateOutputHeight_oob s i h hle]
      exact fun hc => by cases hc
    · rw [updateOutputHeight_ok_fst s i h (Nat.lt_of_not_le hle)]
      exact fun hc => by cases hc
  · intro s i
    by_cases hle : s.outputCollection.length ≤ i
    · rw [getOutputOffset_oob s i hle]
      exact fun hc => by cases hc
    · obtain ⟨v, hv⟩ := getOutputOffset_ok_exists s i (Nat.lt_of_not_le hle)
      rw [hv]
      exact fun hc => by cases hc
  · intro s hinv
    exact ensureOutputsTopSBS_sbsInv s hinv
  · intro s orig i h hinv
    cases orig
    · by_cases hle : s.modifiedOutputCollection.length ≤ i
      · rw [updateOutputHeightSBS_mod_oob s i h hle]
        exact hinv
      · exact (updateOutputHeightSBS_mod_ok s i h
          (Nat.lt_of_not_le hle) hinv).2.2.2.1
    · by_cases hle : s.originalOutputCollection.length ≤ i
      · rw [updateOutputHeightSBS_orig_oob s i h hle]
        exact hinv
      · exact (updateOutputHeightSBS_orig_ok s i h
          (Nat.lt_of_not_le hle) hinv).2.2.2.1
  · intro s orig i hinv
    rw [getOutputOffsetSBS_snd]
    exact ensureOutputsTopSBS_sbsInv s hinv
  · intro s hinv
    rw [getOutputTotalHeightSBS_snd]
    exact ensureOutputsTopSBS_sbsInv s hinv
  · intro s hinv
    exact layoutChangeSBS_sbsInv s hinv
  · intro s orig i h
    cases orig
    · by_cases hle : s.modifiedOutputCollection.length ≤ i
      · rw [updateOutputHeightSBS_mod_oob s i h hle]
        exact fun hc => by cases hc
      · rw [updateOutputHeightSBS_mod_ok_fst s i h (Nat.lt_of_not_le hle)]
        exact fun hc => by cases hc
    · by_cases hle : s.originalOutputCollection.length ≤ i
      · rw [updateOutputHeightSBS_orig_oob s i h hle]
        exact fun hc => by cases hc
      · rw [updateOutputHeightSBS_orig_ok_fst s i h (Nat.lt_of_not_le hle)]
        exact fun hc => by cases hc
  · intro s orig i
    cases orig
    · by_cases hle : s.modifiedOutputCollection.length ≤ i
      · rw [getOutputOffsetSBS_mod_oob s i hle]
        exact fun hc => by cases hc
      · obtain ⟨v, hv⟩ :=
          getOutputOffsetSBS_mod_ok_exists s i (Nat.lt_of_not_le hle)
        rw [hv]
        exact fun hc => by cases hc
    · by_cases hle : s.originalOutputCollection.length ≤ i
      · rw [getOutputOffsetSBS_orig_oob s i hle]
        exact fun hc => by cases hc
      · obtain ⟨v, hv⟩ :=
          getOutputOffsetSBS_orig_ok_exists s i (Nat.lt_of_not_le hle)
        rw [hv]
        exact fun hc => by cases hc

theorem tracker_invariant_preserved_witness :
    trackerInv (ensureOutputsTop (initSingleSide 2))
    ∧ (updateOutputHeight (initSingleSide 2) 0 7).1
        ≠ Except.error CellError.nullDeref := by
  obtain ⟨h1, h2, h3, h4, h5, h6, h7, hrest⟩ := tracker_invariant_preserved
  exact ⟨(h2 (initSingleSide 2) (h1 2)).1, h7 (initSingleSide 2) 0 7⟩

/-- C9: For every metadata record, language tag and transient-metadata
policy, the formatted snapshot contains the language tag and exactly
the metadata entries not marked transient by the policy; and
`checkMetadataIfModified` reports the metadata as modified exactly when
the hashes of the original and modified snapshots differ. -/
theorem getFormatedMetadataJSON_spec (tm : TransientPolicy)
    (metadata : List (String × String)) (language : Option String) :
    (getFormatedMetadataJSON (some tm) metadata language).language = language
    ∧ (∀ kv, kv ∈ (getFormatedMetadataJSON (some tm) metadata language).fields
        ↔ kv ∈ metadata ∧ tm kv.1 = false)
    ∧ (∀ (hashFn : MetadataSnapshot → Nat) om mm ol ml,
        checkMetadataIfModified hashFn (some tm) om mm ol ml = true
          ↔ hashFn (getFormatedMetadataJSON (some tm) om ol)
              ≠ hashFn (getFormatedMetadataJSON (some tm) mm ml)) := by
  refine ⟨rfl, ?_, ?_⟩
  · intro kv
    simp [getFormatedMetadataJSON, List.mem_filter]
  · intro hashFn om mm ol ml
    simp [checkMetadataIfModified]

/-- C10: For both variants, an out-of-range `updateOutputHeight` call
throws before performing any mutation: the returned state is exactly
the input state (collections, trackers and layout record untouched)
and no notification is fired. -/
theorem updateOutputHeight_oob_atomic :
    (∀ (s : SingleSideState) (i h : Nat), s.outputCollection.length ≤ i →
      updateOutputHeight s i h = (Except.error CellError.outOfRange, s, []))
    ∧ (∀ (s : SideBySideState) (orig : Bool) (i h : Nat),
      (if orig then s.originalOutputCollection.length
        else s.modifiedOutputCollection.length) ≤ i →
      updateOutputHeightSBS s orig i h
        = (Except.error CellError.outOfRange, s, [])) := by
  refine ⟨fun s i h hle => updateOutputHeight_oob s i h hle, ?_⟩
  intro s orig i h hle
  cases orig
  · exact updateOutputHeightSBS_mod_oob s i h hle
  · exact updateOutputHeightSBS_orig_oob s i h hle

theorem updateOutputHeight_oob_atomic_witness :
    updateOutputHeight (initSingleSide 2) 2 9
      = (Except.error CellError.outOfRange, initSingleSide 2, [])
    ∧ updateOutputHeightSBS
        (initSideBySide 1 2 PropertyFoldingState.Collapsed) true 1 9
      = (Except.error CellError.outOfRange,
         initSideBySide 1 2 PropertyFoldingState.Collapsed, []) := by
  have h := updateOutputHeight_oob_atomic
  exact ⟨h.1 (initSingleSide 2) 2 9 (by decide),
    h.2 (initSideBySide 1 2 PropertyFoldingState.Collapsed) true 1 9
      (by decide)⟩
